import Mathlib

/-!
Verification development for the ForceOne IT lead-extractor core.

The Python source is embedded shallowly: dataclasses become structures,
enums become inductive types, floats become exact rationals (`ℚ`),
Python dict lookups become association-list lookups, and Python
truthiness of optional strings / lists is made explicit.  Functions keep
the names of the methods they embed (`score_lead`, `score_batch`,
`calculate_cloud_maturity`, ...).  Definitions whose name starts with
`spec` are transcriptions of the natural-language specification, used
only to compare against the code-derived definitions.
-/

set_option maxRecDepth 4000

namespace ForceOne

/-- Lower-casing of a character as Python `str.lower` acts on the ASCII
range; all keyword tables in the source are ASCII. -/
def pyCharLower (c : Char) : Char :=
  if c.isUpper then Char.ofNat (c.toNat + 32) else c

/-- Model of Python `s.lower()`. -/
def pyLower (s : String) : String :=
  ⟨s.data.map pyCharLower⟩

/-- Model of Python list/string prefix test on character lists. -/
def isPrefixL : List Char → List Char → Bool
  | [], _ => true
  | _ :: _, [] => false
  | a :: as, b :: bs => a = b && isPrefixL as bs

/-- Model of Python substring membership on character lists. -/
def isInfixL (pat : List Char) : List Char → Bool
  | [] => isPrefixL pat []
  | c :: rest => isPrefixL pat (c :: rest) || isInfixL pat rest

/-- Model of Python `pat in s` for strings. -/
def inStr (pat s : String) : Bool :=
  isInfixL pat.data s.data

/-- Python truthiness of an optional string (`None` and `""` are falsy). -/
def truthyStr : Option String → Bool
  | none => false
  | some s => !(s == "")

/-- `Sector` enum from src/src/models/lead.py. -/
inductive Sector
  | banking | fintech | retail | ecommerce | manufacturing
  | mining | technology | healthcare | other
deriving DecidableEq

/-- The `.value` string of each `Sector` member. -/
def Sector.value : Sector → String
  | .banking => "banking"
  | .fintech => "fintech"
  | .retail => "retail"
  | .ecommerce => "ecommerce"
  | .manufacturing => "manufacturing"
  | .mining => "mining"
  | .technology => "technology"
  | .healthcare => "healthcare"
  | .other => "other"

/-- Model of the Python enum constructor `Sector(value)`; `none` models
the `ValueError` raised on an unknown value. -/
def Sector.ofValue (s : String) : Option Sector :=
  if s = "banking" then some .banking
  else if s = "fintech" then some .fintech
  else if s = "retail" then some .retail
  else if s = "ecommerce" then some .ecommerce
  else if s = "manufacturing" then some .manufacturing
  else if s = "mining" then some .mining
  else if s = "technology" then some .technology
  else if s = "healthcare" then some .healthcare
  else if s = "other" then some .other
  else none

/-- `CompanySize` enum from src/src/models/lead.py. -/
inductive CompanySize
  | micro | small | medium | large | enterprise
deriving DecidableEq

/-- The `.value` string of each `CompanySize` member. -/
def CompanySize.value : CompanySize → String
  | .micro => "micro"
  | .small => "small"
  | .medium => "medium"
  | .large => "large"
  | .enterprise => "enterprise"

/-- Model of the Python enum constructor `CompanySize(value)`. -/
def CompanySize.ofValue (s : String) : Option CompanySize :=
  if s = "micro" then some .micro
  else if s = "small" then some .small
  else if s = "medium" then some .medium
  else if s = "large" then some .large
  else if s = "enterprise" then some .enterprise
  else none

/-- `CloudMaturity` enum from src/src/models/lead.py. -/
inductive CloudMaturity
  | none | exploring | adopting | mature | native
deriving DecidableEq

/-- The `.value` string of each `CloudMaturity` member. -/
def CloudMaturity.value : CloudMaturity → String
  | .none => "none"
  | .exploring => "exploring"
  | .adopting => "adopting"
  | .mature => "mature"
  | .native => "native"

/-- Model of the Python enum constructor `CloudMaturity(value)`. -/
def CloudMaturity.ofValue (s : String) : Option CloudMaturity :=
  if s = "none" then some .none
  else if s = "exploring" then some .exploring
  else if s = "adopting" then some .adopting
  else if s = "mature" then some .mature
  else if s = "native" then some .native
  else none

/-- The `Lead` dataclass from src/src/models/lead.py.  Floats are
modelled as exact rationals and the two `datetime` fields as abstract
timestamps (`ℕ`); `decision_makers`, `score_details` and `metadata`
keep their dict shape as association lists. -/
structure Lead where
  company_name : String
  cnpj : Option String := Option.none
  website : Option String := Option.none
  email : Option String := Option.none
  phone : Option String := Option.none
  address : Option String := Option.none
  city : Option String := Option.none
  state : Option String := Option.none
  sector : Option Sector := Option.none
  company_size : Option CompanySize := Option.none
  employee_count : Option Nat := Option.none
  annual_revenue : Option ℚ := Option.none
  linkedin_url : Option String := Option.none
  decision_makers : List (List (String × String)) := []
  technologies_used : List String := []
  cloud_maturity : Option CloudMaturity := Option.none
  aws_usage : Bool := false
  competitor_cloud : Option String := Option.none
  pain_points : List String := []
  score : ℚ := 0
  score_details : List (String × ℚ) := []
  notes : Option String := Option.none
  source : Option String := Option.none
  extracted_at : Nat := 0
  updated_at : Nat := 0
  metadata : List (String × String) := []
deriving DecidableEq

/-- `Lead.calculate_priority` from src/src/models/lead.py: priority is a
pure function of the stored score. -/
def Lead.calculate_priority (l : Lead) : String :=
  if l.score ≥ 80 then "HOT"
  else if l.score ≥ 60 then "WARM"
  else if l.score ≥ 40 then "COOL"
  else "COLD"

/-- The scoring-weight record of `Config.SCORING_WEIGHTS`
(src/src/utils/config.py). -/
structure ScoringWeights where
  company_size : ℚ
  digital_maturity : ℚ
  cloud_usage : ℚ
  sector_fit : ℚ
deriving DecidableEq

/-- Default `Config.SCORING_WEIGHTS`. -/
def SCORING_WEIGHTS : ScoringWeights :=
  { company_size := 3/10, digital_maturity := 1/4, cloud_usage := 1/4, sector_fit := 1/5 }

/-- `Config.AWS_SERVICES_KEYWORDS` from src/src/utils/config.py. -/
def AWS_SERVICES_KEYWORDS : List String :=
  ["ec2", "s3", "rds", "lambda", "cloudfront", "elastic",
   "dynamodb", "redshift", "sagemaker", "ecs", "eks",
   "fargate", "aurora", "cloudwatch", "route53"]

/-- Python `round` rounds half to even; the source applies it at two
decimal places to an arithmetic total, modelled here over exact
rationals. -/
def pyRoundHalfEven (q : ℚ) : ℤ :=
  let f : ℤ := ⌊q⌋
  if q - f < 1/2 then f
  else if q - f > 1/2 then f + 1
  else if f % 2 = 0 then f else f + 1

/-- `round(x, 2)` from the source, over exact rationals. -/
def roundTo2 (q : ℚ) : ℚ :=
  (pyRoundHalfEven (q * 100) : ℚ) / 100

namespace LeadScorer

/-- `self.target_sectors` from src/src/scorers/lead_scorer.py. -/
def target_sectors : List Sector :=
  [.banking, .fintech, .retail, .ecommerce, .manufacturing,
   .mining, .technology, .healthcare]

/-- `LeadScorer._score_company_size`. -/
def _score_company_size (l : Lead) : ℚ :=
  match l.company_size with
  | Option.none => 30
  | some .micro => 10
  | some .small => 30
  | some .medium => 60
  | some .large => 90
  | some .enterprise => 100

/-- The per-stage table inside `_score_digital_maturity`. -/
def maturity_scores : CloudMaturity → ℚ
  | .none => 0
  | .exploring => 20
  | .adopting => 40
  | .mature => 60
  | .native => 80

/-- The fixed technology keyword list inside `_score_digital_maturity`. -/
def tech_keywords : List String :=
  ["digital", "tech", "software", "cloud", "data",
   "analytics", "ai", "ml", "automation", "devops"]

/-- The keyword loop over the notes inside `_score_digital_maturity`:
each matched keyword adds 5, and the loop breaks once the running total
reaches 100. -/
def notesLoop (notes_lower : String) : List String → ℚ → ℚ
  | [], score => score
  | kw :: rest, score =>
    if inStr kw notes_lower then
      let score := score + 5
      if score ≥ 100 then score else notesLoop notes_lower rest score
    else notesLoop notes_lower rest score

/-- `LeadScorer._score_digital_maturity`. -/
def _score_digital_maturity (l : Lead) : ℚ :=
  let score : ℚ := 0
  let score := if truthyStr l.website then score + 20 else score
  let score :=
    if l.technologies_used ≠ [] then
      score + min ((l.technologies_used.length : ℚ) * 10) 40
    else score
  let score :=
    match l.cloud_maturity with
    | some m => max score (maturity_scores m)
    | Option.none => score
  let score :=
    if truthyStr l.notes then
      notesLoop (pyLower ((l.notes).getD "")) tech_keywords score
    else score
  min score 100

/-- The `competitor_scores` dict lookup with default 50 inside
`_score_cloud_usage`. -/
def competitor_scores (s : String) : ℚ :=
  if s = "azure" then 80
  else if s = "gcp" then 80
  else if s = "google cloud" then 80
  else if s = "ibm cloud" then 70
  else if s = "oracle cloud" then 70
  else if s = "alibaba" then 60
  else if s = "other" then 50
  else 50

/-- The `aws_solvable` pain-point keyword list inside
`_score_cloud_usage`. -/
def aws_solvable : List String :=
  ["scalability", "performance", "cost", "reliability",
   "security", "compliance", "infrastructure", "deployment",
   "monitoring", "backup", "disaster recovery"]

/-- `LeadScorer._score_cloud_usage`. -/
def _score_cloud_usage (l : Lead) : ℚ :=
  let score : ℚ :=
    if l.aws_usage then 100
    else if truthyStr l.competitor_cloud then
      competitor_scores (pyLower ((l.competitor_cloud).getD ""))
    else if l.technologies_used ≠ [] then
      min ((l.technologies_used.countP
        (fun t => AWS_SERVICES_KEYWORDS.any (fun k => inStr k (pyLower t))) : ℚ) * 20) 80
    else 0
  if l.pain_points ≠ [] then
    let pain_score : ℚ :=
      10 * (l.pain_points.countP
        (fun p => aws_solvable.any (fun k => inStr k (pyLower p))))
    max score (min pain_score 70)
  else score

/-- `LeadScorer._score_sector_fit`. -/
def _score_sector_fit (l : Lead) : ℚ :=
  match l.sector with
  | Option.none => 40
  | some s =>
    if target_sectors.contains s then
      match s with
      | .banking => 100
      | .fintech => 95
      | .retail => 90
      | .mining => 90
      | .technology => 85
      | .healthcare => 85
      | .manufacturing => 80
      | .ecommerce => 80
      | .other => 80
    else 40

/-- `LeadScorer.score_lead`: computes the four factor scores, the
weighted total rounded to two decimals, and stores score and
score_details on the lead. -/
def score_lead (w : ScoringWeights) (l : Lead) : Lead :=
  let s_cs := _score_company_size l
  let s_dm := _score_digital_maturity l
  let s_cu := _score_cloud_usage l
  let s_sf := _score_sector_fit l
  let total := s_cs * w.company_size + s_dm * w.digital_maturity
    + s_cu * w.cloud_usage + s_sf * w.sector_fit
  { l with
    score := roundTo2 total
    score_details :=
      [("company_size", s_cs), ("digital_maturity", s_dm),
       ("cloud_usage", s_cu), ("sector_fit", s_sf)] }

/-- Relation used for the descending sort on score. -/
def byScoreDesc (a b : Lead) : Prop :=
  b.score ≤ a.score

instance : DecidableRel byScoreDesc :=
  fun a b => inferInstanceAs (Decidable (b.score ≤ a.score))

instance : IsTotal Lead byScoreDesc :=
  ⟨fun a b => le_total b.score a.score⟩

instance : IsTrans Lead byScoreDesc :=
  ⟨fun _ _ _ h1 h2 => le_trans h2 h1⟩

/-- One iteration of the `score_batch` loop body: a successful scoring
keeps the scored lead; a raised exception (modelled by `Option.none`)
keeps the original lead with its score set to 0. -/
def batchStep (f : Lead → Option Lead) (l : Lead) : Lead :=
  match f l with
  | some scored => scored
  | Option.none => { l with score := 0 }

/-- `LeadScorer.score_batch` with the per-lead scorer abstracted as a
fallible function, modelling the try/except around `score_lead`:
append each processed lead, then sort by score descending (Python
`list.sort` is stable; `insertionSort` with a non-strict relation is the
same stable sort). -/
def score_batch_with (f : Lead → Option Lead) (leads : List Lead) : List Lead :=
  List.insertionSort byScoreDesc (leads.map (batchStep f))

/-- `LeadScorer.score_batch` with the actual (total) scorer. -/
def score_batch (w : ScoringWeights) (leads : List Lead) : List Lead :=
  score_batch_with (fun l => some (score_lead w l)) leads

end LeadScorer

/-- The technology-signal bag returned by
`TechnographicsEnricher.analyze_website_tech` and consumed by the
classifier (src/src/enrichers/technographics_enricher.py).  The
`aws_services` field is built from a Python set, so its entries are
distinct by construction. -/
structure TechData where
  technologies : List String := []
  categories : List (String × List String) := []
  aws_services : List String := []
  tech_count : Nat := 0
deriving DecidableEq

/-- Python `tech_data["categories"].get(key, [])`: value lookup in the
categories dict with an empty default. -/
def TechData.catGet (t : TechData) (key : String) : List String :=
  (t.categories.lookup key).getD []

/-- Python `key in categories`: key membership in the categories dict. -/
def TechData.hasCat (t : TechData) (key : String) : Bool :=
  t.categories.any (fun p => p.1 == key)

namespace TechnographicsEnricher

/-- The `cloud_indicators` counter computed inside
`calculate_cloud_maturity`: one point each for a cdn category key, an
analytics category key, and a frontend category containing a modern
framework. -/
def cloud_ready_indicators (t : TechData) : Nat :=
  (if t.hasCat "cdn" then 1 else 0)
  + (if t.hasCat "analytics" then 1 else 0)
  + (if t.hasCat "frontend"
        && (t.catGet "frontend").any
             (fun f => ["react", "angular", "vue"].contains f)
     then 1 else 0)

/-- `TechnographicsEnricher.calculate_cloud_maturity`
(src/src/enrichers/technographics_enricher.py, lines 237-278). -/
def calculate_cloud_maturity (t : TechData) : CloudMaturity :=
  if t.technologies = [] then .none
  else
    let cloud_providers := t.catGet "cloud_provider"
    let aws_services := t.aws_services
    if cloud_providers ≠ [] then
      if cloud_providers.contains "aws" then
        if aws_services.length ≥ 5 then .native
        else if aws_services.length ≥ 2 then .mature
        else .adopting
      else .adopting
    else
      if cloud_ready_indicators t ≥ 2 then .exploring
      else if cloud_ready_indicators t ≥ 1 then .exploring
      else .none

/-- The record returned by `calculate_intent_signals`. -/
structure IntentSignals where
  score : Nat
  indicators : List String
  urgency : String
deriving DecidableEq

/-- `TechnographicsEnricher.calculate_intent_signals`
(src/src/enrichers/technographics_enricher.py, lines 313-358); the lead
argument of the source method is unused by its body. -/
def calculate_intent_signals (_lead : Lead) (t : TechData) : IntentSignals :=
  let score : Nat := 0
  let ind : List String := []
  let urgency : String := "low"
  let (score, ind) :=
    if t.catGet "cloud_provider" = [] then
      (score + 20, ind ++ ["No cloud provider detected - migration opportunity"])
    else (score, ind)
  let (score, ind) :=
    if t.hasCat "cloud_provider"
        && !(t.catGet "cloud_provider").contains "aws"
        && !(t.catGet "cloud_provider" == []) then
      (score + 30, ind ++ ["Using competitor cloud - potential switch"])
    else (score, ind)
  let (score, ind, urgency) :=
    if t.hasCat "ecommerce" && !t.hasCat "cdn" then
      (score + 25, ind ++ ["E-commerce without CDN - performance opportunity"], "medium")
    else (score, ind, urgency)
  let (score, ind) :=
    if t.hasCat "database" && !t.hasCat "cloud_provider" then
      (score + 15, ind ++ ["Database workloads not in cloud"])
    else (score, ind)
  let (score, ind) :=
    if t.hasCat "frontend"
        && (t.catGet "frontend").any (fun f => ["react", "angular", "vue"].contains f) then
      (score + 10, ind ++ ["Modern tech stack - cloud-ready"])
    else (score, ind)
  let urgency :=
    if score ≥ 50 then "high"
    else if score ≥ 30 then "medium"
    else urgency
  { score := score, indicators := ind, urgency := urgency }

end TechnographicsEnricher

namespace JobChangeMonitor

/-- The `promotion_indicators` keyword list inside
`JobChangeMonitor._calculate_opportunity_score`
(src/src/monitors/job_change_monitor.py). -/
def promotion_indicators : List String :=
  ["diretor", "director", "head", "vp", "vice", "chief", "ceo", "cto", "cio"]

/-- The `target_keywords` list inside `_calculate_opportunity_score`. -/
def target_keywords : List String :=
  ["tecnologia", "tech", "cloud", "aws", "digital", "software"]

/-- Whether a role string matches one of the senior-title keywords. -/
def isSeniorRole (role : String) : Bool :=
  promotion_indicators.any (fun k => inStr k (pyLower role))

/-- `JobChangeMonitor._calculate_opportunity_score`
(src/src/monitors/job_change_monitor.py, lines 313-346). -/
def _calculate_opportunity_score
    (old_company new_company old_role new_role : String) : ℚ :=
  let score : ℚ := 50
  let score := if old_company ≠ new_company then score + 20 else score
  let score :=
    if new_role ≠ "" && old_role ≠ "" then
      let old_is_senior := isSeniorRole old_role
      let new_is_senior := isSeniorRole new_role
      if new_is_senior && !old_is_senior then score + 30
      else if new_is_senior then score + 15
      else score
    else score
  let score :=
    if new_company ≠ ""
        && target_keywords.any (fun k => inStr k (pyLower new_company)) then
      score + 10
    else score
  let score := score + 10
  min score 100

end JobChangeMonitor

namespace ProspectPlaylistAI

/-- The criteria dict of `ProspectPlaylistAI._lead_matches_criteria`
(src/src/ai/prospect_playlists.py), as a typed sparse record: absent
dict keys are the defaults (`min_score` defaults to 0 in the source
lookup; the list keys default to empty; `has_website` to false; an
absent `limit` means no truncation).  The limit is modelled as a
natural number. -/
structure Criteria where
  min_score : ℚ := 0
  sectors : List String := []
  company_sizes : List String := []
  cloud_maturity : List String := []
  competitor_cloud : List String := []
  has_website : Bool := false
  technologies_mentioned : List String := []
  pain_points : List String := []
  limit : Option Nat := Option.none
deriving DecidableEq

/-- `ProspectPlaylistAI._lead_matches_criteria`
(src/src/ai/prospect_playlists.py, lines 397-442). -/
def _lead_matches_criteria (l : Lead) (c : Criteria) : Bool :=
  if l.score < c.min_score then false
  else if c.sectors ≠ []
      && !(match l.sector with
           | some s => c.sectors.contains s.value
           | Option.none => false) then false
  else if c.company_sizes ≠ []
      && !(match l.company_size with
           | some s => c.company_sizes.contains s.value
           | Option.none => false) then false
  else if c.cloud_maturity ≠ []
      && !(match l.cloud_maturity with
           | some m => c.cloud_maturity.contains m.value
           | Option.none => false) then false
  else if c.competitor_cloud ≠ []
      && !(match l.competitor_cloud with
           | some v => c.competitor_cloud.contains v
           | Option.none => false) then false
  else if c.has_website && !truthyStr l.website then false
  else if c.technologies_mentioned ≠ []
      && !(c.technologies_mentioned.any (fun k =>
            inStr (pyLower k)
              (String.intercalate " " (l.technologies_used.map pyLower)))) then false
  else if c.pain_points ≠ []
      && !(c.pain_points.any (fun k =>
            inStr (pyLower k)
              (String.intercalate " " (l.pain_points.map pyLower)))) then false
  else true

/-- `ProspectPlaylistAI._filter_leads_by_criteria`
(src/src/ai/prospect_playlists.py, lines 382-395): keep the matching
leads, sort by score descending (stable, as Python `list.sort`), then
truncate to the limit; an absent limit defaults to the length of the
filtered list, i.e. no truncation. -/
def _filter_leads_by_criteria (leads : List Lead) (c : Criteria) : List Lead :=
  let filtered := leads.filter (fun l => _lead_matches_criteria l c)
  let sorted := List.insertionSort LeadScorer.byScoreDesc filtered
  sorted.take (c.limit.getD sorted.length)

end ProspectPlaylistAI

/-- The dict produced by `Lead.to_dict` (src/src/models/lead.py), with
enum members replaced by their `.value` strings.  The two timestamp
fields are carried as the abstract timestamp itself: ISO-8601
formatting/parsing of `datetime` is modelled as the identity on that
value. -/
structure LeadDict where
  company_name : String
  cnpj : Option String
  website : Option String
  email : Option String
  phone : Option String
  address : Option String
  city : Option String
  state : Option String
  sector : Option String
  company_size : Option String
  employee_count : Option Nat
  annual_revenue : Option ℚ
  linkedin_url : Option String
  decision_makers : List (List (String × String))
  technologies_used : List String
  cloud_maturity : Option String
  aws_usage : Bool
  competitor_cloud : Option String
  pain_points : List String
  score : ℚ
  score_details : List (String × ℚ)
  notes : Option String
  source : Option String
  extracted_at : Nat
  updated_at : Nat
  metadata : List (String × String)
deriving DecidableEq

/-- `Lead.to_dict` (src/src/models/lead.py, lines 64-92). -/
def Lead.to_dict (l : Lead) : LeadDict :=
  { company_name := l.company_name
    cnpj := l.cnpj
    website := l.website
    email := l.email
    phone := l.phone
    address := l.address
    city := l.city
    state := l.state
    sector := l.sector.map Sector.value
    company_size := l.company_size.map CompanySize.value
    employee_count := l.employee_count
    annual_revenue := l.annual_revenue
    linkedin_url := l.linkedin_url
    decision_makers := l.decision_makers
    technologies_used := l.technologies_used
    cloud_maturity := l.cloud_maturity.map CloudMaturity.value
    aws_usage := l.aws_usage
    competitor_cloud := l.competitor_cloud
    pain_points := l.pain_points
    score := l.score
    score_details := l.score_details
    notes := l.notes
    source := l.source
    extracted_at := l.extracted_at
    updated_at := l.updated_at
    metadata := l.metadata }

/-- Parse an optional enum value string as `Lead.from_dict` does:
`None` (and the falsy empty string) passes through unconverted, a
non-empty string goes through the enum constructor, whose
`ValueError` on an unknown value is modelled by `Option.none` on the
outside. -/
def parseOptEnum {E : Type} (ofValue : String → Option E) :
    Option String → Option (Option E)
  | Option.none => some Option.none
  | some s =>
    if s = "" then some Option.none
    else (ofValue s).map some

/-- `Lead.from_dict` (src/src/models/lead.py, lines 94-106); the
enum-constructor `ValueError` on a malformed value is modelled by
`Option.none`. -/
def Lead.from_dict (d : LeadDict) : Option Lead :=
  match parseOptEnum Sector.ofValue d.sector,
      parseOptEnum CompanySize.ofValue d.company_size,
      parseOptEnum CloudMaturity.ofValue d.cloud_maturity with
  | some sec, some csize, some cm =>
    some
      { company_name := d.company_name
        cnpj := d.cnpj
        website := d.website
        email := d.email
        phone := d.phone
        address := d.address
        city := d.city
        state := d.state
        sector := sec
        company_size := csize
        employee_count := d.employee_count
        annual_revenue := d.annual_revenue
        linkedin_url := d.linkedin_url
        decision_makers := d.decision_makers
        technologies_used := d.technologies_used
        cloud_maturity := cm
        aws_usage := d.aws_usage
        competitor_cloud := d.competitor_cloud
        pain_points := d.pain_points
        score := d.score
        score_details := d.score_details
        notes := d.notes
        source := d.source
        extracted_at := d.extracted_at
        updated_at := d.updated_at
        metadata := d.metadata }
  | _, _, _ => Option.none

/-!
Transcriptions of the specification text, used only to compare against
the code-derived definitions above.
-/

/-- Transcription of the five ordered cloud-maturity rules exactly as
the specification states them (rule 4 requires at least two of the
cdn / analytics / modern-frontend categories). -/
def specCloudMaturityRules (t : TechData) : CloudMaturity :=
  if t.technologies = [] then .none
  else if (t.catGet "cloud_provider").any (fun p => !(p == "aws"))
      && !(t.catGet "cloud_provider").contains "aws" then .adopting
  else if (t.catGet "cloud_provider").contains "aws" then
    if t.aws_services.length ≥ 5 then .native
    else if t.aws_services.length ≥ 2 then .mature
    else .adopting
  else if t.catGet "cloud_provider" = [] ∧ TechnographicsEnricher.cloud_ready_indicators t ≥ 2 then .exploring
  else .none

/-- The five ordered cloud-maturity rules with the threshold of rule 4
amended from two indicators to one, matching the code. -/
def specCloudMaturityAmended (t : TechData) : CloudMaturity :=
  if t.technologies = [] then .none
  else if (t.catGet "cloud_provider").any (fun p => !(p == "aws"))
      && !(t.catGet "cloud_provider").contains "aws" then .adopting
  else if (t.catGet "cloud_provider").contains "aws" then
    if t.aws_services.length ≥ 5 then .native
    else if t.aws_services.length ≥ 2 then .mature
    else .adopting
  else if t.catGet "cloud_provider" = [] ∧ TechnographicsEnricher.cloud_ready_indicators t ≥ 1 then .exploring
  else .none

/-- Transcription of the claimed urgency rule: the bucket depends only
on the final intent score via the fixed thresholds. -/
def specUrgencyFromScore (s : Nat) : String :=
  if s ≥ 50 then "high"
  else if s ≥ 30 then "medium"
  else "low"

/-- Transcription of the claimed provider-derived cloud_usage value:
100 for the target provider, else the per-competitor lookup defaulting
to 50, else 20 points per detected target-managed-service keyword
capped at 80. -/
def specCloudUsageProviderValue (l : Lead) : ℚ :=
  if l.aws_usage then 100
  else if truthyStr l.competitor_cloud then
    LeadScorer.competitor_scores (pyLower ((l.competitor_cloud).getD ""))
  else
    min ((l.technologies_used.countP
      (fun t => AWS_SERVICES_KEYWORDS.any (fun k => inStr k (pyLower t))) : ℚ) * 20) 80

/-- Transcription of the claimed pain-point-derived cloud_usage value:
10 points per pain point matching an AWS-solvable keyword, capped at
70. -/
def specCloudUsagePainValue (l : Lead) : ℚ :=
  min (10 * (l.pain_points.countP
    (fun p => LeadScorer.aws_solvable.any (fun k => inStr k (pyLower p))) : ℚ)) 70

/-- Transcription of the claimed job-change opportunity formula exactly
as stated: base 50, +20 on company change, +30 for a promotion into a
senior title (+15 when both roles match), +10 for a target-industry
keyword in the new employer name, +10 recency, capped at 100. -/
def specOpportunityScore (old_company new_company old_role new_role : String) : ℚ :=
  min (50
    + (if old_company ≠ new_company then (20 : ℚ) else 0)
    + (if JobChangeMonitor.isSeniorRole new_role
          && !JobChangeMonitor.isSeniorRole old_role then (30 : ℚ)
       else if JobChangeMonitor.isSeniorRole new_role
          && JobChangeMonitor.isSeniorRole old_role then 15
       else 0)
    + (if JobChangeMonitor.target_keywords.any
          (fun k => inStr k (pyLower new_company)) then (10 : ℚ) else 0)
    + 10) 100

/-- The claimed opportunity formula amended with the guard the code
applies: the seniority bonuses are only awarded when both role strings
are non-empty. -/
def specOpportunityScoreAmended (old_company new_company old_role new_role : String) : ℚ :=
  min (50
    + (if old_company ≠ new_company then (20 : ℚ) else 0)
    + (if new_role ≠ "" ∧ old_role ≠ "" then
        (if JobChangeMonitor.isSeniorRole new_role
            && !JobChangeMonitor.isSeniorRole old_role then (30 : ℚ)
         else if JobChangeMonitor.isSeniorRole new_role
            && JobChangeMonitor.isSeniorRole old_role then 15
         else 0)
       else 0)
    + (if JobChangeMonitor.target_keywords.any
          (fun k => inStr k (pyLower new_company)) then (10 : ℚ) else 0)
    + 10) 100

/-- Concrete technology bag for the cloud-maturity counterexample: a
single cdn technology, no cloud provider. -/
def cdnOnlyBag : TechData :=
  { technologies := ["cloudflare"]
    categories := [("cdn", ["cloudflare"])]
    aws_services := []
    tech_count := 1 }

/-- Concrete technology bag for the urgency counterexample: an
e-commerce platform hosted on the target cloud provider, without a
CDN. -/
def awsShopBag : TechData :=
  { technologies := ["aws", "magento"]
    categories := [("cloud_provider", ["aws"]), ("ecommerce", ["magento"])]
    aws_services := []
    tech_count := 2 }

/-- A minimal lead, used where a `Lead` argument is required but
unused. -/
def plainLead : Lead :=
  { company_name := "Acme" }

/-- The first concrete lead of the scoring claim: banking sector,
enterprise size, a website, no detected technologies, no
cloud-maturity stage, uses the target cloud. -/
def hotBankLead : Lead :=
  { company_name := "HotBank"
    sector := some .banking
    company_size := some .enterprise
    website := some "https://hotbank.example"
    aws_usage := true }

/-- The second concrete lead of the scoring claim: no sector, no size,
no website, no technologies, no cloud flags. -/
def coldLead : Lead :=
  { company_name := "Cold Co" }

/-!
Theorems.
-/

/-- Parsing the serialized value of an optional `Sector` recovers it. -/
theorem parse_sector_value (o : Option Sector) :
    parseOptEnum Sector.ofValue (o.map Sector.value) = some o := by
  cases o with
  | none => rfl
  | some s => cases s <;> rfl

/-- Parsing the serialized value of an optional `CompanySize` recovers
it. -/
theorem parse_company_size_value (o : Option CompanySize) :
    parseOptEnum CompanySize.ofValue (o.map CompanySize.value) = some o := by
  cases o with
  | none => rfl
  | some s => cases s <;> rfl

/-- Parsing the serialized value of an optional `CloudMaturity`
recovers it. -/
theorem parse_cloud_maturity_value (o : Option CloudMaturity) :
    parseOptEnum CloudMaturity.ofValue (o.map CloudMaturity.value) = some o := by
  cases o with
  | none => rfl
  | some s => cases s <;> rfl

/-- Full round trip of the export representation. -/
theorem from_dict_to_dict (l : Lead) : Lead.from_dict (Lead.to_dict l) = some l := by
  simp only [Lead.to_dict, Lead.from_dict, parse_sector_value,
    parse_company_size_value, parse_cloud_maturity_value]

/-- C2 counterexample: for a bag with a single cdn technology and no
cloud provider, the code classifies `exploring` while the five rules of
the claim (rule 4 requiring at least two indicator categories) yield
`none`, so the classifier does not implement the claimed rules. -/
theorem claim_C2_counterexample :
    TechnographicsEnricher.calculate_cloud_maturity cdnOnlyBag = CloudMaturity.exploring
    ∧ specCloudMaturityRules cdnOnlyBag = CloudMaturity.none := by
  decide

/-- A nonempty list of strings not containing `a` has an element other
than `a`. -/
theorem any_ne_of_not_contains (l : List String) (a : String)
    (h1 : l ≠ []) (h2 : l.contains a = false) :
    l.any (fun p => !(p == a)) = true := by
  cases l with
  | nil => exact absurd rfl h1
  | cons b bs =>
    simp only [List.contains_cons, Bool.or_eq_false_iff] at h2
    have hne : ¬ a = b := by simpa using h2.1
    simp only [List.any_cons, Bool.or_eq_true, List.any_eq_true]
    exact Or.inl (by simpa using fun h => hne h.symm)

/-- C2 amended: the classifier implements the five ordered rules with
rule 4 amended to require at least one of the cdn / analytics /
modern-frontend categories. -/
theorem claim_C2_amended (t : TechData) :
    TechnographicsEnricher.calculate_cloud_maturity t = specCloudMaturityAmended t := by
  unfold TechnographicsEnricher.calculate_cloud_maturity specCloudMaturityAmended
  by_cases h0 : t.technologies = []
  · simp [h0]
  · by_cases hcp : t.catGet "cloud_provider" = []
    · simp only [h0, hcp, ne_eq, not_true_eq_false, if_false, ite_false, ite_true,
        List.any_nil, List.contains, List.elem_nil, Bool.false_and, Bool.and_false,
        not_false_eq_true, true_and, if_true]
      by_cases h2 : TechnographicsEnricher.cloud_ready_indicators t ≥ 2
      · have h1 : TechnographicsEnricher.cloud_ready_indicators t ≥ 1 := by omega
        simp [h2, h1]
      · by_cases h1 : TechnographicsEnricher.cloud_ready_indicators t ≥ 1
        · simp [h2, h1]
        · simp [h2, h1]
    · by_cases ha : (t.catGet "cloud_provider").contains "aws"
      · have hmem : "aws" ∈ t.catGet "cloud_provider" := by simpa using ha
        simp [h0, hcp, hmem]
      · have hmem : "aws" ∉ t.catGet "cloud_provider" := by simpa using ha
        have hany := any_ne_of_not_contains (t.catGet "cloud_provider") "aws" hcp
          (by simpa using ha)
        simp [h0, hcp, hmem, hany]

/-- C6 counterexample: for an e-commerce site hosted on the target
provider without a CDN, the intent score is 25 and the code reports
urgency `medium`, while the claimed pure-threshold rule gives `low`
below score 30, so the urgency bucket is not determined solely by the
score. -/
theorem claim_C6_counterexample :
    (TechnographicsEnricher.calculate_intent_signals plainLead awsShopBag).score = 25
    ∧ (TechnographicsEnricher.calculate_intent_signals plainLead awsShopBag).urgency = "medium"
    ∧ specUrgencyFromScore 25 = "low" := by
  refine ⟨by decide, by decide, by decide⟩

/-- C6 amended: the urgency bucket is `high` at score 50 or more,
`medium` at score 30 or more or whenever the e-commerce-without-CDN
indicator fired, and `low` otherwise. -/
theorem claim_C6_amended (l : Lead) (t : TechData) :
    (TechnographicsEnricher.calculate_intent_signals l t).urgency
      = (if (TechnographicsEnricher.calculate_intent_signals l t).score ≥ 50 then "high"
         else if (TechnographicsEnricher.calculate_intent_signals l t).score ≥ 30 then "medium"
         else if t.hasCat "ecommerce" && !t.hasCat "cdn" then "medium"
         else "low") := by
  unfold TechnographicsEnricher.calculate_intent_signals
  by_cases h1 : t.catGet "cloud_provider" = [] <;>
  by_cases h2 : (t.hasCat "cloud_provider" && !(t.catGet "cloud_provider").contains "aws"
      && !(t.catGet "cloud_provider" == [])) = true <;>
  by_cases h3 : (t.hasCat "ecommerce" && !t.hasCat "cdn") = true <;>
  by_cases h4 : (t.hasCat "database" && !t.hasCat "cloud_provider") = true <;>
  by_cases h5 : (t.hasCat "frontend"
      && (t.catGet "frontend").any (fun f => ["react", "angular", "vue"].contains f)) = true <;>
  simp [h1, h2, h3, h4, h5]

/-- Every entry of the per-competitor lookup table is nonnegative. -/
theorem competitor_scores_nonneg (s : String) : (0:ℚ) ≤ LeadScorer.competitor_scores s := by
  unfold LeadScorer.competitor_scores
  split_ifs <;> norm_num

/-- C5: the cloud_usage factor is the maximum, not the sum, of the
provider-derived value and the pain-point-derived value. -/
theorem claim_C5_cloud_usage_max (l : Lead) :
    LeadScorer._score_cloud_usage l
      = max (specCloudUsageProviderValue l) (specCloudUsagePainValue l) := by
  by_cases hp : l.pain_points = [] <;> by_cases ht : l.technologies_used = [] <;>
    simp only [LeadScorer._score_cloud_usage, specCloudUsageProviderValue,
      specCloudUsagePainValue, hp, ht, List.countP_nil, Nat.cast_zero, mul_zero,
      ne_eq, not_true_eq_false, not_false_eq_true, if_true, if_false, ite_true, ite_false]
  · rw [zero_mul, inf_eq_left.mpr (by norm_num : (0:ℚ) ≤ 80),
      inf_eq_left.mpr (by norm_num : (0:ℚ) ≤ 70)]
    refine (sup_eq_left.mpr ?_).symm
    split_ifs
    · norm_num
    · exact competitor_scores_nonneg _
    · norm_num
  · rw [inf_eq_left.mpr (by norm_num : (0:ℚ) ≤ 70)]
    refine (sup_eq_left.mpr ?_).symm
    split_ifs
    · norm_num
    · exact competitor_scores_nonneg _
    · exact le_min (by positivity) (by norm_num)
  · rw [zero_mul, inf_eq_left.mpr (by norm_num : (0:ℚ) ≤ 80)]

/-- C1: with the default weights, the banking/enterprise/website/target
cloud lead scores exactly 80.00 with priority HOT, and the empty lead
scores exactly 17.00 with priority COLD, priority being computed on
demand from the score. -/
theorem claim_C1_concrete_scores :
    (LeadScorer.score_lead SCORING_WEIGHTS hotBankLead).score = 80
    ∧ (LeadScorer.score_lead SCORING_WEIGHTS hotBankLead).calculate_priority = "HOT"
    ∧ (LeadScorer.score_lead SCORING_WEIGHTS coldLead).score = 17
    ∧ (LeadScorer.score_lead SCORING_WEIGHTS coldLead).calculate_priority = "COLD" := by
  have hhot : (LeadScorer.score_lead SCORING_WEIGHTS hotBankLead).score = 80 := by
    simp [hotBankLead, LeadScorer.score_lead, LeadScorer._score_company_size,
      LeadScorer._score_digital_maturity, LeadScorer._score_cloud_usage,
      LeadScorer._score_sector_fit, truthyStr, SCORING_WEIGHTS, roundTo2,
      pyRoundHalfEven, LeadScorer.target_sectors, min_def, max_def]
    norm_num
  have hcold : (LeadScorer.score_lead SCORING_WEIGHTS coldLead).score = 17 := by
    simp [coldLead, LeadScorer.score_lead, LeadScorer._score_company_size,
      LeadScorer._score_digital_maturity, LeadScorer._score_cloud_usage,
      LeadScorer._score_sector_fit, truthyStr, SCORING_WEIGHTS, roundTo2,
      pyRoundHalfEven, LeadScorer.target_sectors, min_def, max_def]
    norm_num
  refine ⟨hhot, ?_, hcold, ?_⟩
  · simp [Lead.calculate_priority, hhot]
  · simp [Lead.calculate_priority, hcold]
    norm_num

/-- C3: batch scoring is total and order-normalizing: for every
per-lead scorer, including one that fails (`Option.none` models a
raised exception), the batch output keeps the input length, is a
permutation of the processed records (a failed record is kept with its
score set to 0 by `batchStep`), and is sorted by score descending. -/
theorem claim_C3_batch_total (f : Lead → Option Lead) (leads : List Lead) :
    (LeadScorer.score_batch_with f leads).length = leads.length
    ∧ (LeadScorer.score_batch_with f leads).Perm (leads.map (LeadScorer.batchStep f))
    ∧ List.Sorted LeadScorer.byScoreDesc (LeadScorer.score_batch_with f leads) := by
  unfold LeadScorer.score_batch_with
  refine ⟨?_, ?_, ?_⟩
  · rw [(List.perm_insertionSort LeadScorer.byScoreDesc
      (leads.map (LeadScorer.batchStep f))).length_eq]
    exact List.length_map _ _
  · exact List.perm_insertionSort _ _
  · exact List.sorted_insertionSort _ _

/-- C8: serializing a scored lead and parsing it back yields a lead
with identical score, priority, and classification fields. -/
theorem claim_C8_roundtrip (l : Lead) :
    ∃ l2, Lead.from_dict (Lead.to_dict l) = some l2
      ∧ l2.score = l.score
      ∧ l2.calculate_priority = l.calculate_priority
      ∧ l2.sector = l.sector
      ∧ l2.company_size = l.company_size
      ∧ l2.cloud_maturity = l.cloud_maturity :=
  ⟨l, from_dict_to_dict l, rfl, rfl, rfl, rfl, rfl⟩

/-- C4 counterexample: with an unchanged company, an empty old-role
string and the new role Diretor, the code scores 60 (the seniority
block is skipped because the old role string is empty) while the
claimed formula awards the +30 promotion bonus and yields 90. -/
theorem claim_C4_counterexample :
    JobChangeMonitor._calculate_opportunity_score "Acme" "Acme" "" "Diretor" = 60
    ∧ specOpportunityScore "Acme" "Acme" "" "Diretor" = 90 := by
  have h1 : JobChangeMonitor.isSeniorRole "Diretor" = true := by decide
  have h2 : JobChangeMonitor.isSeniorRole "" = false := by decide
  have h3 : (JobChangeMonitor.target_keywords.any
      (fun k => inStr k (pyLower "Acme"))) = false := by decide
  constructor
  · simp [JobChangeMonitor._calculate_opportunity_score, h1, h2, h3]
    norm_num [min_def]
  · simp [specOpportunityScore, h1, h2, h3]
    norm_num [min_def]

/-- The non-empty-new-company guard on the industry bonus is redundant:
an empty employer name matches no target keyword. -/
theorem industry_cond_eq (nc : String) :
    ((nc ≠ "") && JobChangeMonitor.target_keywords.any (fun k => inStr k (pyLower nc)))
      = JobChangeMonitor.target_keywords.any (fun k => inStr k (pyLower nc)) := by
  by_cases h : nc = ""
  · subst h
    have hempty : (JobChangeMonitor.target_keywords.any
        (fun k => inStr k (pyLower ""))) = false := by decide
    simp [hempty]
  · simp [h]

set_option maxHeartbeats 1000000 in
/-- C4 amended: the opportunity score equals the claimed formula with
the guard the code applies, namely that the seniority bonuses are only
awarded when both role strings are non-empty. -/
theorem claim_C4_amended (oc nc orl nrl : String) :
    JobChangeMonitor._calculate_opportunity_score oc nc orl nrl
      = specOpportunityScoreAmended oc nc orl nrl := by
  unfold JobChangeMonitor._calculate_opportunity_score specOpportunityScoreAmended
  rw [industry_cond_eq]
  cases hnew : JobChangeMonitor.isSeniorRole nrl <;>
  cases hold : JobChangeMonitor.isSeniorRole orl <;>
  simp only [hnew, hold, Bool.and_eq_true, decide_eq_true_eq, Bool.not_true,
    Bool.not_false, Bool.true_and, Bool.false_and, Bool.and_true, Bool.and_false,
    if_true, if_false, ite_true, ite_false, Bool.false_eq_true, Bool.true_eq_false] <;>
  split_ifs <;> norm_num [min_def]

/-- C9: the job-change opportunity score always lies in [60, 100]: the
flat recency bonus sits on top of the base 50, and the cap bounds the
result above. -/
theorem claim_C9_opportunity_bounds (oc nc orl nrl : String) :
    60 ≤ JobChangeMonitor._calculate_opportunity_score oc nc orl nrl
    ∧ JobChangeMonitor._calculate_opportunity_score oc nc orl nrl ≤ 100 := by
  unfold JobChangeMonitor._calculate_opportunity_score
  dsimp only
  split_ifs <;> constructor <;> norm_num [min_def]

/-- C10: `score_lead` assigns only the score and score-details fields;
every other field of the lead is returned unchanged. -/
theorem claim_C10_frame (w : ScoringWeights) (l : Lead) :
    (LeadScorer.score_lead w l).company_name = l.company_name
    ∧ (LeadScorer.score_lead w l).cnpj = l.cnpj
    ∧ (LeadScorer.score_lead w l).website = l.website
    ∧ (LeadScorer.score_lead w l).email = l.email
    ∧ (LeadScorer.score_lead w l).phone = l.phone
    ∧ (LeadScorer.score_lead w l).address = l.address
    ∧ (LeadScorer.score_lead w l).city = l.city
    ∧ (LeadScorer.score_lead w l).state = l.state
    ∧ (LeadScorer.score_lead w l).sector = l.sector
    ∧ (LeadScorer.score_lead w l).company_size = l.company_size
    ∧ (LeadScorer.score_lead w l).employee_count = l.employee_count
    ∧ (LeadScorer.score_lead w l).annual_revenue = l.annual_revenue
    ∧ (LeadScorer.score_lead w l).linkedin_url = l.linkedin_url
    ∧ (LeadScorer.score_lead w l).decision_makers = l.decision_makers
    ∧ (LeadScorer.score_lead w l).technologies_used = l.technologies_used
    ∧ (LeadScorer.score_lead w l).cloud_maturity = l.cloud_maturity
    ∧ (LeadScorer.score_lead w l).aws_usage = l.aws_usage
    ∧ (LeadScorer.score_lead w l).competitor_cloud = l.competitor_cloud
    ∧ (LeadScorer.score_lead w l).pain_points = l.pain_points
    ∧ (LeadScorer.score_lead w l).notes = l.notes
    ∧ (LeadScorer.score_lead w l).source = l.source
    ∧ (LeadScorer.score_lead w l).extracted_at = l.extracted_at
    ∧ (LeadScorer.score_lead w l).updated_at = l.updated_at
    ∧ (LeadScorer.score_lead w l).metadata = l.metadata
    ∧ LeadScorer.score_lead w l =
        { l with
          score := (LeadScorer.score_lead w l).score
          score_details := (LeadScorer.score_lead w l).score_details } :=
  ⟨rfl, rfl, rfl, rfl, rfl, rfl, rfl, rfl, rfl, rfl, rfl, rfl, rfl,
   rfl, rfl, rfl, rfl, rfl, rfl, rfl, rfl, rfl, rfl, rfl, rfl⟩

/-- C7: the criteria filter is idempotent, its output is sorted by
score descending, and it is truncated to the limit when one is given
(and bounded by the pool size otherwise). -/
theorem claim_C7_filter_idempotent (leads : List Lead) (c : ProspectPlaylistAI.Criteria) :
    ProspectPlaylistAI._filter_leads_by_criteria
        (ProspectPlaylistAI._filter_leads_by_criteria leads c) c
      = ProspectPlaylistAI._filter_leads_by_criteria leads c
    ∧ List.Sorted LeadScorer.byScoreDesc (ProspectPlaylistAI._filter_leads_by_criteria leads c)
    ∧ (ProspectPlaylistAI._filter_leads_by_criteria leads c).length
        ≤ (match c.limit with | some n => n | Option.none => leads.length) := by
  have main : ∀ (pool : List Lead),
      ProspectPlaylistAI._filter_leads_by_criteria pool c
        = (List.insertionSort LeadScorer.byScoreDesc
            (pool.filter (fun l => ProspectPlaylistAI._lead_matches_criteria l c))).take
          (c.limit.getD (List.insertionSort LeadScorer.byScoreDesc
            (pool.filter (fun l => ProspectPlaylistAI._lead_matches_criteria l c))).length) :=
    fun _ => rfl
  set P : Lead → Bool := fun l => ProspectPlaylistAI._lead_matches_criteria l c with hP
  set sorted := List.insertionSort LeadScorer.byScoreDesc (leads.filter P) with hsorted
  set F := ProspectPlaylistAI._filter_leads_by_criteria leads c with hF
  have hFtake : F = sorted.take (c.limit.getD sorted.length) := main leads
  have hsortedF : List.Sorted LeadScorer.byScoreDesc F := by
    rw [hFtake]
    exact List.Pairwise.sublist (List.take_sublist _ _)
      (List.sorted_insertionSort LeadScorer.byScoreDesc _)
  have hmemF : ∀ x ∈ F, P x = true := by
    intro x hx
    rw [hFtake] at hx
    exact (List.mem_filter.mp
      ((List.perm_insertionSort LeadScorer.byScoreDesc _).mem_iff.mp
        (List.mem_of_mem_take hx))).2
  have hlen : F.length ≤ (match c.limit with | some n => n | Option.none => leads.length) := by
    cases hlim : c.limit with
    | none =>
      rw [hFtake, hlim]
      simp only [Option.getD, List.take_length]
      calc sorted.length = (leads.filter P).length :=
            (List.perm_insertionSort LeadScorer.byScoreDesc _).length_eq
        _ ≤ leads.length := List.length_filter_le _ _
    | some n =>
      rw [hFtake, hlim]
      simp only [Option.getD]
      rw [List.length_take]
      exact min_le_left _ _
  refine ⟨?_, hsortedF, hlen⟩
  rw [main F]
  rw [List.filter_eq_self.mpr hmemF, hsortedF.insertionSort_eq]
  cases hlim : c.limit with
  | none => simp only [Option.getD, List.take_length]
  | some n =>
    simp only [Option.getD]
    apply List.take_of_length_le
    rw [hFtake, hlim]
    simp only [Option.getD]
    rw [List.length_take]
    exact min_le_left _ _

end ForceOne
